import Mathlib

/-!
A shallow embedding of the Raven II homing subsystem (src/src/raven/homing.cpp)
and proofs about it.

The file embeds the default build of the source (neither RAVEN_II_SQUARE nor
RICKS_TOOLS defined).  External collaborators declared in headers but whose
bodies are not part of the source under verification (cable coupling, PD
control, torque-to-DAC conversion, trajectory generation, state-estimation
filter, per-type parameter tables) are modelled as an explicit `Externals` record of
functions, typed by the interface contract the specification gives for them:
each external writes only its documented output channel of a joint.  The
scalar type `K` of positions and torques is a parameter (the C code uses
`float`); machine reals are modelled as exact field elements.
-/

set_option maxRecDepth 100000
set_option maxHeartbeats 4000000

/-- Joint homing states, from the `jstate_...` enumeration used by homing.cpp. -/
inductive Jstate : Type
  | not_ready
  | pos_unknown
  | hard_stop
  | homing1
  | homing2
  | ready
  | wait
deriving DecidableEq

/-- Arm type tag of a mechanism (`GOLD_ARM` / `GREEN_ARM`). -/
inductive ArmType : Type
  | gold
  | green
deriving DecidableEq

/-- The slice of `struct DOF` that homing.cpp reads or writes.
`velPIIntegral` models the hidden integral term of the tool velocity
controller that `jvel_PI_control(_joint, 1)` resets. -/
structure DOF (K : Type) : Type where
  typ : Nat
  state : Jstate
  jpos : K
  jpos_d : K
  mpos : K
  mpos_d : K
  jvel_d : K
  tau_d : K
  current_cmd : Int
  enc_val : Int
  enc_offset : K
  velPIIntegral : K

/-- One mechanism: arm-type tag plus its MAX_DOF_PER_MECH = 8 joints. -/
structure Mechanism (K : Type) : Type where
  armType : ArmType
  joints : Fin 8 → DOF K

/-- The device is the ordered collection of its mechanisms (NUM_MECH many). -/
abbrev Device (K : Type) : Type := List (Mechanism K)

/-- Modelled from the spec: joint role index SHOULDER within a mechanism. -/
def SHOULDER : Fin 8 := 0

/-- Modelled from the spec: joint role index ELBOW within a mechanism. -/
def ELBOW : Fin 8 := 1

/-- Modelled from the spec: joint role index Z_INS within a mechanism. -/
def Z_INS : Fin 8 := 2

/-- Modelled from the spec: joint role index TOOL_ROT within a mechanism. -/
def TOOL_ROT : Fin 8 := 4

/-- Modelled from the spec: joint role index WRIST within a mechanism. -/
def WRIST : Fin 8 := 5

/-- Modelled from the spec: joint role index GRASP1 within a mechanism. -/
def GRASP1 : Fin 8 := 6

/-- Modelled from the spec: `is_toolDOF` — tool DOFs are tool-rotation, wrist,
grasper1, grasper2, i.e. per-mechanism joint slots 4..7; joint types number the
two mechanisms' joints consecutively, so the slot is the type mod 8. -/
def is_toolDOF (t : Nat) : Bool := decide (4 ≤ t % 8)

/-- Modelled from the spec: `tools_ready` — true when the mechanism's tool DOFs
have already completed homing (been calibrated), i.e. reached `ready`. -/
def tools_ready {K : Type} (m : Mechanism K) : Bool :=
  if (m.joints TOOL_ROT).state = Jstate.ready ∧ (m.joints WRIST).state = Jstate.ready ∧
      (m.joints GRASP1).state = Jstate.ready then true else false

/-- The `homing_max_dac` table of hard-stop current thresholds (DAC units),
default build (the `#else` branch of `RAVEN_II_SQUARE`). -/
def homing_max_dac : Nat → Nat := fun i =>
  List.getD [2500, 2500, 1900, 0, 1400, 1900, 1900, 1900] i 0

/-- `check_homing_condition`: a hard stop is flagged only in `pos_unknown`,
when the magnitude of the commanded DAC output reaches the per-type threshold
(`abs(current_cmd) >= homing_max_dac[type % 8]`). -/
def check_homing_condition {K : Type} (j : DOF K) : Bool :=
  if j.state ≠ Jstate.pos_unknown then false
  else if homing_max_dac (j.typ % 8) ≤ j.current_cmd.natAbs then true
  else false

/-- The `f_period` table of homing search-trajectory durations from `homing()`
(the unused slot 3 has the 9999999 run-forever sentinel). -/
def f_period {K : Type} [Field K] : Nat → K := fun t =>
  List.getD [1, 1, 1, 9999999, 1, 1, 30, 30,
             1, 1, 1, 9999999, 1, 1, 30, 30] t 0

/-- The `f_magnitude` table of homing search-trajectory magnitudes from
`homing()`; `pi` stands for the external constant `M_PI`, `x DEG2RAD`
is `x * (M_PI / 180)`. -/
def f_magnitude {K : Type} [Field K] (pi : K) : Nat → K := fun t =>
  List.getD [-10 * (pi / 180), 10 * (pi / 180), 2 / 100, 9999999,
             -80 * (pi / 180), 40 * (pi / 180), 40 * (pi / 180), 40 * (pi / 180),
             -10 * (pi / 180), 10 * (pi / 180), 2 / 100, 9999999,
             -80 * (pi / 180), 40 * (pi / 180), 40 * (pi / 180), 40 * (pi / 180)] t 0

/-- Modelled from the spec: the external collaborators of the homing core,
typed by the interface the specification gives them.  Each function returns
the value it writes into its documented output channel:
cable-coupling transforms write desired motor positions (`mpos_d`) or, for the
forward transform, joint positions (`jpos`); the PD controller writes `tau_d`;
the torque-to-DAC stage writes `current_cmd`; trajectory primitives write the
next desired sample `(jpos_d, jvel_d)`, the position trajectory additionally
reporting whether it is still in progress; the state-estimate read-back
`getStateLPF` writes `mpos` (the filter reset itself touches only hidden filter
state).  `pi` is `M_PI` and `ENC_CNTS_PER_REV` the encoder resolution from the
configuration headers; `home_position` and `max_position` are the per-type
`DOF_types[]` tables loaded externally. -/
structure Externals (K : Type) : Type where
  pi : K
  ENC_CNTS_PER_REV : K
  home_position : Nat → K
  max_position : Nat → K
  invCableCoupling : Device K → Nat → Nat → Fin 8 → K
  invMechCableCoupling : Mechanism K → Fin 8 → K
  fwdMechCableCoupling : Mechanism K → Fin 8 → K
  mpos_PD_control : DOF K → K
  TorqueToDAC : DOF K → Int
  start_trajectory_mag : DOF K → K → K → K × K
  start_trajectory : DOF K → K → K → K × K
  update_linear_sinusoid_position_trajectory : DOF K → K × K
  update_position_trajectory : DOF K → (K × K) × Bool
  stop_trajectory : DOF K → K × K
  getStateLPF : DOF K → K

/-- Write a trajectory sample `(jpos_d, jvel_d)` into a joint. -/
def applySample {K : Type} (j : DOF K) (s : K × K) : DOF K :=
  {j with jpos_d := s.1, jvel_d := s.2}

/-- The `jstate_homing2` body of the switch in `homing()`: advance the
point-to-point trajectory; when it reports completion, the joint is `ready`. -/
def homing2Step {K : Type} (ext : Externals K) (j : DOF K) : DOF K :=
  let r := ext.update_position_trajectory j
  let j1 := applySample j r.1
  if r.2 then j1 else {j1 with state := Jstate.ready}

/-- The per-joint homing state machine `homing()`.  `jstate_homing1` starts
the 2.5 s move to the home position, becomes `jstate_homing2` and falls
through to the `jstate_homing2` logic in the same tick. -/
def homing {K : Type} [Field K] (ext : Externals K) (j : DOF K) : DOF K :=
  match j.state with
  | Jstate.wait => j
  | Jstate.not_ready =>
      let j1 : DOF K := {j with state := Jstate.pos_unknown}
      applySample j1 (ext.start_trajectory_mag j1 (f_magnitude ext.pi j1.typ) (f_period j1.typ))
  | Jstate.pos_unknown =>
      applySample j (ext.update_linear_sinusoid_position_trajectory j)
  | Jstate.hard_stop => j
  | Jstate.homing1 =>
      let j1 := applySample j (ext.start_trajectory j (ext.home_position j.typ) (5 / 2))
      homing2Step ext {j1 with state := Jstate.homing2}
  | Jstate.homing2 => homing2Step ext j
  | Jstate.ready => j

/-- Encoder sign convention of `set_joints_known_pos` (default build):
the raw encoder value is negated on the gold arm and on every tool DOF. -/
def enc_sign {K : Type} [Field K] (a : ArmType) (t : Nat) : K :=
  if a = ArmType.gold ∨ is_toolDOF t then -1 else 1

/-- First loop of `set_joints_known_pos`: assign the calibration target
`jpos_d` for one joint, moving the active group to `jstate_homing1`. -/
def firstPassJoint {K : Type} [Field K] (ext : Externals K) (tool_only : Bool) (j : DOF K) : DOF K :=
  if tool_only = true ∧ ¬ is_toolDOF j.typ then
    {j with jpos_d := ext.home_position j.typ}
  else if tool_only = false ∧ is_toolDOF j.typ then
    {j with jpos_d := j.jpos}
  else
    {j with jpos_d := ext.max_position j.typ, state := Jstate.homing1}

/-- Second loop of `set_joints_known_pos` for one joint: set measured motor
position to the desired one, reset the estimation filter (hidden state only),
and compute the absolute encoder offset
`enc_offset = f_enc_val - mpos_d * (ENC_CNTS_PER_REV / (2 * M_PI))`. -/
def encPassJoint {K : Type} [Field K] (ext : Externals K) (a : ArmType) (j : DOF K) : DOF K :=
  let j1 : DOF K := {j with mpos := j.mpos_d}
  let f_enc_val : K := enc_sign a j1.typ * (j1.enc_val : K)
  let cc : K := ext.ENC_CNTS_PER_REV / (2 * ext.pi)
  let j2 : DOF K := {j1 with enc_offset := f_enc_val - j1.mpos_d * cc}
  {j2 with mpos := ext.getStateLPF j2}

/-- `set_joints_known_pos`: assign calibration targets to all joints of the
mechanism, run the inverse cable coupling (jpos_d → mpos_d), compute every
joint's encoder offset, then run the forward coupling (mpos → jpos). -/
def set_joints_known_pos {K : Type} [Field K] (ext : Externals K) (m : Mechanism K) (tool_only : Bool) :
    Mechanism K :=
  let m1 : Mechanism K := {m with joints := fun k => firstPassJoint ext tool_only (m.joints k)}
  let m2 : Mechanism K := {m1 with joints := fun k =>
    {m1.joints k with mpos_d := ext.invMechCableCoupling m1 k}}
  let m3 : Mechanism K := {m2 with joints := fun k => encPassJoint ext m2.armType (m2.joints k)}
  {m3 with joints := fun k => {m3.joints k with jpos := ext.fwdMechCableCoupling m3 k}}

/-- Modelled from the spec: `jvel_PI_control(_joint, 1)` resets the integral
term of the tool-joint velocity controller. -/
def jvel_PI_control_reset {K : Type} [Field K] (j : DOF K) : DOF K :=
  {j with velPIIntegral := 0}

/-- Per-joint body of the homing-initialization pass of `raven_homing`:
zero desired torque and velocity, hold desired at measured positions, state
`not_ready`, and reset the tool velocity-controller integral term. -/
def initJoint {K : Type} [Field K] (j : DOF K) : DOF K :=
  let j1 : DOF K :=
    {j with tau_d := 0, mpos_d := j.mpos, jpos_d := j.jpos, jvel_d := 0,
            state := Jstate.not_ready}
  if is_toolDOF j1.typ then jvel_PI_control_reset j1 else j1

/-- The full reset pass of `raven_homing` over every joint of the device. -/
def initPass {K : Type} [Field K] (dev : Device K) : Device K :=
  dev.map (fun m => {m with joints := fun k => initJoint (m.joints k)})

/-- One iteration of the motion-command loop: joint `i` of the mechanism runs
`homing()` when it is a tool DOF or the mechanism's tools are ready;
`tools_ready` is re-evaluated against the partially updated mechanism exactly
as the in-place C loop does. -/
def motionStep {K : Type} [Field K] (ext : Externals K) (mech : Mechanism K) (i : Fin 8) :
    Mechanism K :=
  if is_toolDOF (mech.joints i).typ ∨ tools_ready mech then
    {mech with joints := fun k => if k = i then homing ext (mech.joints i) else mech.joints k}
  else mech

/-- The motion-command loop of `raven_homing` over one mechanism: joints are
visited in order, each through `motionStep`. -/
def motionMech {K : Type} [Field K] (ext : Externals K) (m : Mechanism K) : Mechanism K :=
  (List.finRange 8).foldl (motionStep ext) m

/-- The motion-command loop of `raven_homing` over the whole device. -/
def motionPass {K : Type} [Field K] (ext : Externals K) (dev : Device K) : Device K :=
  dev.map (motionMech ext)

/-- `invCableCoupling(device0, runlevel)`: writes every joint's `mpos_d`. -/
def invCablePass {K : Type} [Field K] (ext : Externals K) (runlevel : Nat) (dev : Device K) : Device K :=
  dev.mapIdx (fun i m => {m with joints := fun k =>
    {m.joints k with mpos_d := ext.invCableCoupling dev runlevel i k}})

/-- The `mpos_PD_control` loop of `raven_homing`: writes every `tau_d`. -/
def pdPass {K : Type} [Field K] (ext : Externals K) (dev : Device K) : Device K :=
  dev.map (fun m => {m with joints := fun k =>
    {m.joints k with tau_d := ext.mpos_PD_control (m.joints k)}})

/-- `TorqueToDAC(device0)`: writes every joint's `current_cmd`. -/
def dacPass {K : Type} [Field K] (ext : Externals K) (dev : Device K) : Device K :=
  dev.map (fun m => {m with joints := fun k =>
    {m.joints k with current_cmd := ext.TorqueToDAC (m.joints k)}})

/-- Hard-stop detection step of `raven_homing` for one joint: on a positive
`check_homing_condition`, the joint becomes `jstate_hard_stop`, its command is
zeroed and its trajectory is cancelled. -/
def detectJoint {K : Type} [Field K] (ext : Externals K) (j : DOF K) : DOF K :=
  if check_homing_condition j then
    let j1 : DOF K := {j with state := Jstate.hard_stop, current_cmd := 0}
    applySample j1 (ext.stop_trajectory j1)
  else j

/-- The mechanism-completion predicate of the `j == MAX_DOF_PER_MECH-1` block
of `raven_homing`: the tool group (tool-rot, wrist, grasp1) when tools are not
yet ready, otherwise the positioning group (shoulder, elbow, z-ins). -/
def mechHomingComplete {K : Type} (m : Mechanism K) : Bool :=
  if (tools_ready m = false ∧ (m.joints TOOL_ROT).state = Jstate.hard_stop ∧
        (m.joints WRIST).state = Jstate.hard_stop ∧ (m.joints GRASP1).state = Jstate.hard_stop)
      ∨ (tools_ready m = true ∧ (m.joints SHOULDER).state = Jstate.hard_stop ∧
        (m.joints ELBOW).state = Jstate.hard_stop ∧ (m.joints Z_INS).state = Jstate.hard_stop)
  then true else false

/-- The synchronizer block of `raven_homing` for one mechanism: on mechanism
completion, record the process-wide settle timestamp `delay2` if it is clear,
and after `gTime > delay2 + 200` invoke `set_joints_known_pos` (tool_only iff
tools not ready) and clear `delay2`.  The returned event records
(gTime, mechanism index, tool_only) of an invocation. -/
def mechFinishCheck {K : Type} [Field K] (ext : Externals K) (gTime delay2 idx : Nat)
    (m : Mechanism K) : Mechanism K × Nat × Option (Nat × Nat × Bool) :=
  if mechHomingComplete m then
    let d := if delay2 = 0 then gTime else delay2
    if d + 200 < gTime then
      (set_joints_known_pos ext m (! tools_ready m), 0, some (gTime, idx, ! tools_ready m))
    else (m, d, none)
  else (m, delay2, none)

/-- Hard-stop detection applied to every joint of one mechanism. -/
def detectMech {K : Type} [Field K] (ext : Externals K) (m : Mechanism K) : Mechanism K :=
  {m with joints := fun k => detectJoint ext (m.joints k)}

/-- The final loop of `raven_homing` over the device: per joint, hard-stop
detection; at the last joint of each mechanism, the synchronizer block, with
the single static settle timestamp `delay2` threaded through all mechanisms. -/
def checkMechs {K : Type} [Field K] (ext : Externals K) (gTime : Nat) :
    Nat → Nat → List (Mechanism K) → List (Mechanism K) × Nat × List (Nat × Nat × Bool)
  | _, delay2, [] => ([], delay2, [])
  | idx, delay2, m :: rest =>
      let r := mechFinishCheck ext gTime delay2 idx (detectMech ext m)
      let rest1 := checkMechs ext gTime (idx + 1) r.2.1 rest
      (r.1 :: rest1.1, rest1.2.1, r.2.2.toList ++ rest1.2.2)

/-- The process-wide static state of `raven_homing`: the `homing_inited`
latch, the amp-warm-up timestamp `delay`, and the settle timestamp `delay2`. -/
structure Statics : Type where
  homing_inited : Bool
  delay : Nat
  delay2 : Nat
deriving DecidableEq

/-- Modelled from the spec: the numeric value of the `RL_INIT` run level is
not in the source under verification; only equality with it is ever tested. -/
def RL_INIT : Nat := 0

/-- Modelled from the spec: the numeric value of the `SL_AUTO_INIT` sub level
is not in the source under verification; only equality is ever tested. -/
def SL_AUTO_INIT : Nat := 3

/-- One invocation (one control tick) of `raven_homing`: run-mode gate, 1000
tick amp warm-up delay, optional reset pass, motion commands, inverse cable
coupling, PD control, torque-to-DAC, then hard-stop detection and mechanism
synchronization.  Returns the device, the statics, and the list of
`set_joints_known_pos` invocation events of this tick. -/
def raven_homing {K : Type} [Field K] (ext : Externals K) (dev : Device K) (st : Statics)
    (runlevel sublevel gTime : Nat) (begin_homing : Bool) :
    Device K × Statics × List (Nat × Nat × Bool) :=
  if ¬ (runlevel = RL_INIT ∧ sublevel = SL_AUTO_INIT) then
    (dev, {st with homing_inited := false, delay := gTime}, [])
  else if gTime - st.delay < 1000 then
    (dev, st, [])
  else
    let p : Device K × Statics :=
      if begin_homing = true ∨ st.homing_inited = false then
        (initPass dev, {st with homing_inited := st.homing_inited || ! dev.isEmpty})
      else (dev, st)
    let dev1 := motionPass ext p.1
    let dev2 := invCablePass ext runlevel dev1
    let dev3 := pdPass ext dev2
    let dev4 := dacPass ext dev3
    let r := checkMechs ext gTime 0 p.2.delay2 dev4
    (r.1, {p.2 with delay2 := r.2.1}, r.2.2)

/-- Iterate `raven_homing` over a list of tick times, accumulating the
calibration events (the scheduler calls it once per tick with `gTime`
monotonically increasing). -/
def runTicks {K : Type} [Field K] (ext : Externals K) (runlevel sublevel : Nat) (begin_homing : Bool) :
    Device K × Statics × List (Nat × Nat × Bool) → List Nat →
      Device K × Statics × List (Nat × Nat × Bool)
  | acc, [] => acc
  | acc, t :: ts =>
      let r := raven_homing ext acc.1 acc.2.1 runlevel sublevel t begin_homing
      runTicks ext runlevel sublevel begin_homing (r.1, r.2.1, acc.2.2 ++ r.2.2) ts

/-- A concrete joint value for concrete executions: type `t`, state `s`,
all analog fields zero. -/
def dofC (t : Nat) (s : Jstate) : DOF ℚ :=
  { typ := t, state := s, jpos := 0, jpos_d := 0, mpos := 0, mpos_d := 0,
    jvel_d := 0, tau_d := 0, current_cmd := 0, enc_val := 0, enc_offset := 0,
    velPIIntegral := 0 }

/-- A default mechanism, used only as the out-of-range fallback of indexed
device access in concrete scenarios. -/
def mechDefault : Mechanism ℚ :=
  { armType := ArmType.gold, joints := fun k => dofC k.val Jstate.wait }

/-- A concrete instantiation of the external collaborators over `ℚ`, used to
execute scenarios: couplings copy the relevant channel unchanged, the PD
controller and DAC stage keep the current values, trajectory primitives keep
the current sample, and the point-to-point trajectory never reports
completion. -/
def idExtQ : Externals ℚ :=
  { pi := 355 / 113
    ENC_CNTS_PER_REV := 4096
    home_position := fun _ => 1
    max_position := fun _ => 2
    invCableCoupling := fun dev _ i k => ((dev.getD i mechDefault).joints k).mpos_d
    invMechCableCoupling := fun m k => (m.joints k).jpos_d
    fwdMechCableCoupling := fun m k => (m.joints k).jpos
    mpos_PD_control := fun j => j.tau_d
    TorqueToDAC := fun j => j.current_cmd
    start_trajectory_mag := fun j _ _ => (j.jpos_d, j.jvel_d)
    start_trajectory := fun j _ _ => (j.jpos_d, j.jvel_d)
    update_linear_sinusoid_position_trajectory := fun j => (j.jpos_d, j.jvel_d)
    update_position_trajectory := fun j => ((j.jpos_d, j.jvel_d), true)
    stop_trajectory := fun j => (j.jpos_d, j.jvel_d)
    getStateLPF := fun j => j.mpos }

/-- A concrete mechanism whose joints all sit at `hard_stop` with raw encoder
reading 100, used to run both calibration transitions of one homing pass. -/
def mech5 : Mechanism ℚ :=
  { armType := ArmType.gold,
    joints := fun k => {dofC k.val Jstate.hard_stop with enc_val := 100} }

/-- Scenario C mechanism: positioning group (shoulder, elbow, z-ins) and the
unused slot at `hard_stop`, tools already calibrated (`ready`). -/
def mechC : Mechanism ℚ :=
  { armType := ArmType.gold,
    joints := fun k => dofC k.val (if k.val ≤ 3 then Jstate.hard_stop else Jstate.ready) }

/-- Mid-pass statics: homing initialized, amp warm-up delay long expired,
settle timer clear. -/
def stC : Statics := { homing_inited := true, delay := 0, delay2 := 0 }

/-- Scenario C run: one mechanism, ticks `1000, 1001, ..., 999 + n`. -/
def runC (n : Nat) : Device ℚ × Statics × List (Nat × Nat × Bool) :=
  runTicks idExtQ RL_INIT SL_AUTO_INIT false ([mechC], stC, []) (List.range' 1000 n)

/-- Mechanism of the C8 interference run whose shoulder never reaches its hard
stop (stays `pos_unknown` under zero commanded current), so its completion
predicate never becomes true. -/
def mechC8 : Mechanism ℚ :=
  { armType := ArmType.gold,
    joints := fun k => dofC k.val
      (if k.val = 0 then Jstate.not_ready
       else if k.val ≤ 3 then Jstate.hard_stop else Jstate.ready) }

/-- Two-mechanism run in which both mechanisms' positioning groups are
complete from tick 1000 on. -/
def runC8a (n : Nat) : Device ℚ × Statics × List (Nat × Nat × Bool) :=
  runTicks idExtQ RL_INIT SL_AUTO_INIT false ([mechC, mechC], stC, []) (List.range' 1000 n)

/-- The same run except that mechanism 0 never completes; mechanism 1 is
identical to the previous run. -/
def runC8b (n : Nat) : Device ℚ × Statics × List (Nat × Nat × Bool) :=
  runTicks idExtQ RL_INIT SL_AUTO_INIT false ([mechC8, mechC], stC, []) (List.range' 1000 n)

/-- The motion/coupling/control/DAC pipeline of one tick, specialized to the
concrete externals `idExtQ` (used to reason about the scenario runs tick by
tick). -/
def pipeQ (dv : Device ℚ) : Device ℚ :=
  dacPass idExtQ (pdPass idExtQ (invCablePass idExtQ RL_INIT (motionPass idExtQ dv)))

/-- The Scenario C mechanism right after its positioning-group calibration
fired (`tool_only = false`): positioning joints in `homing1`. -/
def mechCfired : Mechanism ℚ := set_joints_known_pos idExtQ mechC false

/-- `mechCfired` one motion pass later: positioning joints in `homing2`,
where they stay under `idExtQ` (its position trajectory never completes). -/
def mechCsettled : Mechanism ℚ := motionMech idExtQ mechCfired

/-- `mechC8` after its first motion pass: the shoulder has advanced to
`pos_unknown`, where it stays under `idExtQ` (zero commanded current never
reaches the threshold). -/
def mechC8b : Mechanism ℚ :=
  { armType := ArmType.gold,
    joints := fun k => dofC k.val
      (if k.val = 0 then Jstate.pos_unknown
       else if k.val ≤ 3 then Jstate.hard_stop else Jstate.ready) }

/-- Scenario A initial mechanism: every joint `not_ready`, zero everywhere. -/
def mechA : Mechanism ℚ :=
  { armType := ArmType.gold, joints := fun k => dofC k.val Jstate.not_ready }

/-- Scenario A initial statics: homing not yet initialized, mode entered at
tick 0. -/
def stA : Statics := { homing_inited := false, delay := 0, delay2 := 0 }

/-- Scenario A, tick 1000: first tick past the amp warm-up delay, with
`begin_homing` asserted. -/
def runA1 : Device ℚ × Statics × List (Nat × Nat × Bool) :=
  raven_homing idExtQ [mechA] stA RL_INIT SL_AUTO_INIT 1000 true

/-- Scenario A, tick 1001. -/
def runA2 : Device ℚ × Statics × List (Nat × Nat × Bool) :=
  raven_homing idExtQ runA1.1 runA1.2.1 RL_INIT SL_AUTO_INIT 1001 false

/-- Scenario A, tick 1002. -/
def runA3 : Device ℚ × Statics × List (Nat × Nat × Bool) :=
  raven_homing idExtQ runA2.1 runA2.2.1 RL_INIT SL_AUTO_INIT 1002 false

/-- Two joints that agree on every field the homing reset pass does not
overwrite: type, measured positions, commanded output and encoder data — and,
for non-tool joints, the velocity-PI integral (the reset clears that integral
only for tool DOFs). -/
def resetErased {K : Type} (j j' : DOF K) : Prop :=
  j.typ = j'.typ ∧ j.jpos = j'.jpos ∧ j.mpos = j'.mpos ∧
  j.current_cmd = j'.current_cmd ∧ j.enc_val = j'.enc_val ∧ j.enc_offset = j'.enc_offset ∧
  (is_toolDOF j.typ = true ∨ j.velPIIntegral = j'.velPIIntegral)

instance {K : Type} [DecidableEq K] (j j' : DOF K) : Decidable (resetErased j j') := by
  unfold resetErased
  infer_instance

/-- Two devices that differ only in the joint fields the reset pass
overwrites (desired positions and velocities, torque, homing state, tool
integrals). -/
def resetAgree {K : Type} (d d' : Device K) : Prop :=
  List.Forall₂ (fun m m' => m.armType = m'.armType ∧
    ∀ k : Fin 8, resetErased (m.joints k) (m'.joints k)) d d'

/-- C1: for every joint, `check_homing_condition` returns true if and only if
the joint's state is `pos_unknown` and `abs(current_cmd)` is at least
`homing_max_dac[type % 8]`; for a joint in any other state it returns false
regardless of `current_cmd`. -/
theorem C1_detector_iff {K : Type} (j : DOF K) :
    (check_homing_condition j = true ↔
      (j.state = Jstate.pos_unknown ∧ homing_max_dac (j.typ % 8) ≤ j.current_cmd.natAbs))
    ∧ (j.state ≠ Jstate.pos_unknown → check_homing_condition j = false) := by
  by_cases hs : j.state = Jstate.pos_unknown
  · by_cases hc : homing_max_dac (j.typ % 8) ≤ j.current_cmd.natAbs
    · simp [check_homing_condition, hs, hc]
    · simp [check_homing_condition, hs, hc]
  · simp [check_homing_condition, hs]

/-- Witness for C1 at a concrete joint: the shoulder at threshold fires. -/
theorem C1_detector_iff_witness :
    check_homing_condition ({dofC 0 Jstate.pos_unknown with current_cmd := 2500}) = true :=
  (C1_detector_iff ({dofC 0 Jstate.pos_unknown with current_cmd := 2500})).1.mpr
    ⟨rfl, by decide⟩

/-- C6 counterexample: the unused joint slot (type 3, threshold entry 0) DOES
report a hard stop: in `pos_unknown` with `current_cmd = 0` the detector
already returns true, refuting that it never returns true. -/
theorem C6_unused_slot_cex :
    check_homing_condition (dofC 3 Jstate.pos_unknown) = true := by decide

/-- C6 (amended): for a joint of the unused slot type (`type % 8 = 3`, whose
`homing_max_dac` entry is 0), `check_homing_condition` returns true exactly
when the joint's state is `pos_unknown` — regardless of `current_cmd` — and
false in every other state; the slot reports a hard stop immediately rather
than never. -/
theorem C6_unused_slot_amended {K : Type} (j : DOF K) (h : j.typ % 8 = 3) :
    check_homing_condition j = true ↔ j.state = Jstate.pos_unknown := by
  unfold check_homing_condition
  rw [h]
  have h0 : homing_max_dac 3 ≤ j.current_cmd.natAbs := Nat.zero_le _
  by_cases hs : j.state = Jstate.pos_unknown <;> simp [hs, h0]

/-- Witness for the amended C6 at a concrete joint of the green arm's unused
slot (type 11). -/
theorem C6_unused_slot_amended_witness :
    check_homing_condition (dofC 11 Jstate.pos_unknown) = true :=
  (C6_unused_slot_amended (dofC 11 Jstate.pos_unknown) (by decide)).mpr (by decide)

/-- Every branch of the first calibration loop leaves the joint type field
unchanged. -/
theorem firstPassJoint_typ {K : Type} [Field K] (ext : Externals K) (b : Bool) (j : DOF K) :
    (firstPassJoint ext b j).typ = j.typ := by
  unfold firstPassJoint
  split
  · rfl
  · split <;> rfl

/-- Every branch of the first calibration loop leaves the raw encoder value
unchanged. -/
theorem firstPassJoint_enc_val {K : Type} [Field K] (ext : Externals K) (b : Bool) (j : DOF K) :
    (firstPassJoint ext b j).enc_val = j.enc_val := by
  unfold firstPassJoint
  split
  · rfl
  · split <;> rfl

/-- C4: in `set_joints_known_pos`, for every joint of the mechanism: with
`tool_only` set and a non-tool joint, `jpos_d` becomes the type's home
position; with `tool_only` clear and a tool joint, `jpos_d` becomes the
current measured `jpos`; otherwise `jpos_d` becomes the type's max position
and the state becomes `homing1` — and only in this last case does the joint's
state change. -/
theorem C4_set_joints_cases {K : Type} [Field K] (ext : Externals K) (m : Mechanism K)
    (tool_only : Bool) (k : Fin 8) :
    (tool_only = true ∧ is_toolDOF (m.joints k).typ = false →
      ((set_joints_known_pos ext m tool_only).joints k).jpos_d =
          ext.home_position (m.joints k).typ ∧
        ((set_joints_known_pos ext m tool_only).joints k).state = (m.joints k).state)
    ∧ (tool_only = false ∧ is_toolDOF (m.joints k).typ = true →
      ((set_joints_known_pos ext m tool_only).joints k).jpos_d = (m.joints k).jpos ∧
        ((set_joints_known_pos ext m tool_only).joints k).state = (m.joints k).state)
    ∧ (tool_only = is_toolDOF (m.joints k).typ →
      ((set_joints_known_pos ext m tool_only).joints k).jpos_d =
          ext.max_position (m.joints k).typ ∧
        ((set_joints_known_pos ext m tool_only).joints k).state = Jstate.homing1) := by
  have hs : ((set_joints_known_pos ext m tool_only).joints k).state =
      (firstPassJoint ext tool_only (m.joints k)).state := rfl
  have hj : ((set_joints_known_pos ext m tool_only).joints k).jpos_d =
      (firstPassJoint ext tool_only (m.joints k)).jpos_d := rfl
  refine ⟨?_, ?_, ?_⟩
  · rintro ⟨hb, ht⟩
    rw [hs, hj]
    simp [firstPassJoint, hb, ht]
  · rintro ⟨hb, ht⟩
    rw [hs, hj]
    simp [firstPassJoint, hb, ht]
  · intro hbt
    rw [hs, hj]
    cases hb : tool_only with
    | true =>
        rw [hb] at hbt
        simp [firstPassJoint, ← hbt]
    | false =>
        rw [hb] at hbt
        simp [firstPassJoint, ← hbt]

/-- Witness for C4: a concrete mechanism whose shoulder (a non-tool joint in
`hard_stop`) is held at the home position with its state unchanged when
`tool_only` is set. -/
theorem C4_set_joints_cases_witness :
    ((set_joints_known_pos idExtQ
        { armType := ArmType.gold, joints := fun k => dofC k.val Jstate.hard_stop }
        true).joints 0).jpos_d = 1 ∧
      ((set_joints_known_pos idExtQ
        { armType := ArmType.gold, joints := fun k => dofC k.val Jstate.hard_stop }
        true).joints 0).state = Jstate.hard_stop :=
  (C4_set_joints_cases idExtQ
      { armType := ArmType.gold, joints := fun k => dofC k.val Jstate.hard_stop }
      true 0).1 ⟨rfl, by decide⟩

/-- C5 (amended): every invocation of `set_joints_known_pos` recomputes
`enc_offset` in full for every joint of the mechanism — tool or positioning,
whichever group's transition fired — from the current raw encoder value and
the freshly computed desired motor position, with no dependence on the
previous offset (never incrementally).  Within one homing pass in which first
the tool group and then the positioning group calibrates, each joint's offset
is therefore recomputed at both transitions, not exactly once. -/
theorem C5_enc_offset_every_call {K : Type} [Field K] (ext : Externals K) (m : Mechanism K)
    (tool_only : Bool) (k : Fin 8) :
    ((set_joints_known_pos ext m tool_only).joints k).enc_offset =
      enc_sign m.armType (m.joints k).typ * ((m.joints k).enc_val : K) -
        ((set_joints_known_pos ext m tool_only).joints k).mpos_d *
          (ext.ENC_CNTS_PER_REV / (2 * ext.pi)) := by
  have h : ((set_joints_known_pos ext m tool_only).joints k).enc_offset =
      enc_sign m.armType (firstPassJoint ext tool_only (m.joints k)).typ *
          ((firstPassJoint ext tool_only (m.joints k)).enc_val : K) -
        ((set_joints_known_pos ext m tool_only).joints k).mpos_d *
          (ext.ENC_CNTS_PER_REV / (2 * ext.pi)) := rfl
  rw [h, firstPassJoint_typ, firstPassJoint_enc_val]

/-- C5 counterexample: in a pass in which the tool-group transition fires
first (`tool_only = true`) and the positioning-group transition later
(`tool_only = false`), the shoulder's `enc_offset` is rewritten to a new value
by the tool-group call — a transition that is not the shoulder's group's — and
rewritten again by the positioning call: two recomputations in one pass, not
exactly one. -/
theorem C5_enc_offset_cex :
    (((set_joints_known_pos idExtQ mech5 true).joints 0).enc_offset ≠
        (mech5.joints 0).enc_offset)
    ∧ (((set_joints_known_pos idExtQ (set_joints_known_pos idExtQ mech5 true) false).joints
          0).enc_offset ≠
        ((set_joints_known_pos idExtQ mech5 true).joints 0).enc_offset) := by
  norm_num [set_joints_known_pos, encPassJoint, firstPassJoint, enc_sign, is_toolDOF,
    mech5, idExtQ, dofC, tools_ready]

/-- C3: after `set_joints_known_pos`, for every joint of the mechanism,
reconstructing motor position as `(2π/ENC_CNTS_PER_REV)·(sign·enc_val −
enc_offset)` — `sign` being the arm-type/tool-DOF polarity flip — yields
exactly the joint's `mpos_d` (hence agrees with it to within 1e-5); and for a
GOLD_ARM positioning joint with `enc_val = 5000`, `mpos_d = 0.1` and
`ENC_CNTS_PER_REV = 4096`, the computed offset equals
`-5000 - 0.1·(4096/(2π))`. -/
theorem C3_calibration_roundtrip (ext : Externals ℝ) (hpi : ext.pi = Real.pi)
    (henc : ext.ENC_CNTS_PER_REV = 4096) (m : Mechanism ℝ) (tool_only : Bool) (k : Fin 8) :
    ((2 * Real.pi / 4096) *
        (enc_sign m.armType (m.joints k).typ * ((m.joints k).enc_val : ℝ) -
          ((set_joints_known_pos ext m tool_only).joints k).enc_offset) =
      ((set_joints_known_pos ext m tool_only).joints k).mpos_d)
    ∧ (|(2 * Real.pi / 4096) *
          (enc_sign m.armType (m.joints k).typ * ((m.joints k).enc_val : ℝ) -
            ((set_joints_known_pos ext m tool_only).joints k).enc_offset) -
        ((set_joints_known_pos ext m tool_only).joints k).mpos_d| ≤ 1 / 100000)
    ∧ (∀ j : DOF ℝ, j.typ = 0 → j.enc_val = 5000 → j.mpos_d = 1 / 10 →
        (encPassJoint ext ArmType.gold j).enc_offset =
          -5000 - (1 / 10) * (4096 / (2 * Real.pi))) := by
  have hoff : ((set_joints_known_pos ext m tool_only).joints k).enc_offset =
      enc_sign m.armType (m.joints k).typ * ((m.joints k).enc_val : ℝ) -
        ((set_joints_known_pos ext m tool_only).joints k).mpos_d *
          (ext.ENC_CNTS_PER_REV / (2 * ext.pi)) := by
    have h : ((set_joints_known_pos ext m tool_only).joints k).enc_offset =
        enc_sign m.armType (firstPassJoint ext tool_only (m.joints k)).typ *
            ((firstPassJoint ext tool_only (m.joints k)).enc_val : ℝ) -
          ((set_joints_known_pos ext m tool_only).joints k).mpos_d *
            (ext.ENC_CNTS_PER_REV / (2 * ext.pi)) := rfl
    rw [h, firstPassJoint_typ, firstPassJoint_enc_val]
  have key : (2 * Real.pi / 4096) *
      (enc_sign m.armType (m.joints k).typ * ((m.joints k).enc_val : ℝ) -
        ((set_joints_known_pos ext m tool_only).joints k).enc_offset) =
      ((set_joints_known_pos ext m tool_only).joints k).mpos_d := by
    rw [hoff, hpi, henc]
    field_simp
    ring
  refine ⟨key, ?_, ?_⟩
  · rw [key, sub_self, abs_zero]
    norm_num
  · intro j ht he hm
    have h3 : (encPassJoint ext ArmType.gold j).enc_offset =
        enc_sign ArmType.gold j.typ * (j.enc_val : ℝ) -
          j.mpos_d * (ext.ENC_CNTS_PER_REV / (2 * ext.pi)) := rfl
    have hsign : enc_sign ArmType.gold 0 = (-1 : ℝ) := by simp [enc_sign]
    rw [h3, ht, he, hm, henc, hpi, hsign]
    push_cast
    ring

/-- Witness for C3: a concrete GOLD_ARM mechanism with `enc_val = 5000`,
`ENC_CNTS_PER_REV = 4096`, and a coupling yielding `mpos_d = 0.1`. -/
theorem C3_calibration_roundtrip_witness :
    let ext0 : Externals ℝ :=
      { pi := Real.pi
        ENC_CNTS_PER_REV := 4096
        home_position := fun _ => 0
        max_position := fun _ => 0
        invCableCoupling := fun _ _ _ _ => 0
        invMechCableCoupling := fun _ _ => 1 / 10
        fwdMechCableCoupling := fun m k => (m.joints k).jpos
        mpos_PD_control := fun j => j.tau_d
        TorqueToDAC := fun j => j.current_cmd
        start_trajectory_mag := fun j _ _ => (j.jpos_d, j.jvel_d)
        start_trajectory := fun j _ _ => (j.jpos_d, j.jvel_d)
        update_linear_sinusoid_position_trajectory := fun j => (j.jpos_d, j.jvel_d)
        update_position_trajectory := fun j => ((j.jpos_d, j.jvel_d), true)
        stop_trajectory := fun j => (j.jpos_d, j.jvel_d)
        getStateLPF := fun j => j.mpos }
    let m0 : Mechanism ℝ :=
      { armType := ArmType.gold
        joints := fun k =>
          { typ := k.val, state := Jstate.hard_stop, jpos := 0, jpos_d := 0, mpos := 0,
            mpos_d := 0, jvel_d := 0, tau_d := 0, current_cmd := 0, enc_val := 5000,
            enc_offset := 0, velPIIntegral := 0 } }
    ((2 * Real.pi / 4096) *
        (enc_sign m0.armType (m0.joints 0).typ * ((m0.joints 0).enc_val : ℝ) -
          ((set_joints_known_pos ext0 m0 false).joints 0).enc_offset) =
      ((set_joints_known_pos ext0 m0 false).joints 0).mpos_d)
    ∧ (|(2 * Real.pi / 4096) *
          (enc_sign m0.armType (m0.joints 0).typ * ((m0.joints 0).enc_val : ℝ) -
            ((set_joints_known_pos ext0 m0 false).joints 0).enc_offset) -
        ((set_joints_known_pos ext0 m0 false).joints 0).mpos_d| ≤ 1 / 100000)
    ∧ (∀ j : DOF ℝ, j.typ = 0 → j.enc_val = 5000 → j.mpos_d = 1 / 10 →
        (encPassJoint ext0 ArmType.gold j).enc_offset =
          -5000 - (1 / 10) * (4096 / (2 * Real.pi))) := by
  intro ext0 m0
  exact C3_calibration_roundtrip ext0 rfl rfl m0 false 0

/-- Structure-level extensionality for mechanisms. -/
theorem mech_eq {K : Type} (a b : Mechanism K) (h1 : a.armType = b.armType)
    (h2 : ∀ k, a.joints k = b.joints k) : a = b := by
  cases a
  cases b
  simp only [Mechanism.mk.injEq]
  exact ⟨h1, funext h2⟩

/-- Congruence for singleton devices. -/
theorem dev1_eq {a b : Mechanism ℚ} (h : a = b) : ([a] : Device ℚ) = [b] := by rw [h]

/-- Congruence for two-mechanism devices. -/
theorem dev2_eq {a b c d : Mechanism ℚ} (h1 : a = b) (h2 : c = d) :
    ([a, c] : Device ℚ) = [b, d] := by rw [h1, h2]

/-- A tick in INIT/AUTO_INIT past the warm-up delay, with homing already
initialized and `begin_homing` clear, is exactly the control pipeline followed
by the detection/synchronization loop. -/
theorem tick_noinit (dv : Device ℚ) (d t : Nat) (h : ¬ t < 1000) :
    raven_homing idExtQ dv ⟨true, 0, d⟩ RL_INIT SL_AUTO_INIT t false =
      ((checkMechs idExtQ t 0 d (pipeQ dv)).1,
       ⟨true, 0, (checkMechs idExtQ t 0 d (pipeQ dv)).2.1⟩,
       (checkMechs idExtQ t 0 d (pipeQ dv)).2.2) := by
  unfold raven_homing
  rw [if_neg (by simp), if_neg (by simpa using h), if_neg (by simp)]
  rfl

/-- The synchronizer block on an incomplete mechanism changes nothing. -/
theorem mfc_incomplete (t d i : Nat) (m : Mechanism ℚ) (h : mechHomingComplete m = false) :
    mechFinishCheck idExtQ t d i m = (m, d, none) := by
  unfold mechFinishCheck
  rw [if_neg (by simp [h])]

/-- The synchronizer block on a complete mechanism with a clear settle timer
records the current tick and does not fire. -/
theorem mfc_record (t i : Nat) (m : Mechanism ℚ) (h : mechHomingComplete m = true) :
    mechFinishCheck idExtQ t 0 i m = (m, t, none) := by
  unfold mechFinishCheck
  rw [if_pos (by simp [h])]
  have h2 : ¬ (t + 200 < t) := by omega
  simp [h2]

/-- The synchronizer block on a complete mechanism with a recorded settle
timestamp not yet 200 ticks old leaves everything unchanged. -/
theorem mfc_wait (t d i : Nat) (m : Mechanism ℚ) (h : mechHomingComplete m = true)
    (hd : d ≠ 0) (hw : ¬ (d + 200 < t)) :
    mechFinishCheck idExtQ t d i m = (m, d, none) := by
  unfold mechFinishCheck
  rw [if_pos (by simp [h])]
  simp [hd, hw]

/-- The synchronizer block on a complete mechanism whose settle timestamp is
more than 200 ticks old fires the calibration and clears the timer. -/
theorem mfc_fire (t d i : Nat) (m : Mechanism ℚ) (h : mechHomingComplete m = true)
    (hd : d ≠ 0) (hf : d + 200 < t) :
    mechFinishCheck idExtQ t d i m =
      (set_joints_known_pos idExtQ m (! tools_ready m), 0, some (t, i, ! tools_ready m)) := by
  unfold mechFinishCheck
  rw [if_pos (by simp [h])]
  simp [hd, hf]

/-- The detection/synchronization loop on a one-mechanism device. -/
theorem checkMechs_one (t i d : Nat) (m : Mechanism ℚ) :
    checkMechs idExtQ t i d [m] =
      ([(mechFinishCheck idExtQ t d i (detectMech idExtQ m)).1],
       (mechFinishCheck idExtQ t d i (detectMech idExtQ m)).2.1,
       ((mechFinishCheck idExtQ t d i (detectMech idExtQ m)).2.2).toList) := by
  simp [checkMechs]

/-- The detection/synchronization loop on a two-mechanism device: the settle
timer output of the first mechanism's block feeds the second's. -/
theorem checkMechs_two (t i d : Nat) (m0 m1 : Mechanism ℚ) :
    checkMechs idExtQ t i d [m0, m1] =
      ([(mechFinishCheck idExtQ t d i (detectMech idExtQ m0)).1,
        (mechFinishCheck idExtQ t
          (mechFinishCheck idExtQ t d i (detectMech idExtQ m0)).2.1 (i + 1)
          (detectMech idExtQ m1)).1],
       (mechFinishCheck idExtQ t
          (mechFinishCheck idExtQ t d i (detectMech idExtQ m0)).2.1 (i + 1)
          (detectMech idExtQ m1)).2.1,
       ((mechFinishCheck idExtQ t d i (detectMech idExtQ m0)).2.2).toList ++
       ((mechFinishCheck idExtQ t
          (mechFinishCheck idExtQ t d i (detectMech idExtQ m0)).2.1 (i + 1)
          (detectMech idExtQ m1)).2.2).toList) := by
  simp [checkMechs]

theorem cpl_mechC : mechHomingComplete mechC = true := by decide

theorem trdy_mechC : tools_ready mechC = true := by decide

theorem cpl_settled : mechHomingComplete mechCsettled = false := by decide

theorem cpl_8b : mechHomingComplete mechC8b = false := by decide

theorem detect_mechC : detectMech idExtQ mechC = mechC :=
  mech_eq _ _ rfl fun k => by fin_cases k <;> rfl

theorem detect_settled : detectMech idExtQ mechCsettled = mechCsettled :=
  mech_eq _ _ rfl fun k => by fin_cases k <;> rfl

theorem detect_8b : detectMech idExtQ mechC8b = mechC8b :=
  mech_eq _ _ rfl fun k => by fin_cases k <;> rfl

theorem pipeQ_C : pipeQ [mechC] = [mechC] :=
  dev1_eq (mech_eq _ _ rfl fun k => by fin_cases k <;> rfl)

theorem pipeQ_fired : pipeQ [mechCfired] = [mechCsettled] :=
  dev1_eq (mech_eq _ _ rfl fun k => by fin_cases k <;> rfl)

theorem pipeQ_settled : pipeQ [mechCsettled] = [mechCsettled] :=
  dev1_eq (mech_eq _ _ rfl fun k => by fin_cases k <;> rfl)

theorem pipeQ_CC : pipeQ [mechC, mechC] = [mechC, mechC] :=
  dev2_eq (mech_eq _ _ rfl fun k => by fin_cases k <;> rfl)
    (mech_eq _ _ rfl fun k => by fin_cases k <;> rfl)

theorem pipeQ_firedC : pipeQ [mechCfired, mechC] = [mechCsettled, mechC] :=
  dev2_eq (mech_eq _ _ rfl fun k => by fin_cases k <;> rfl)
    (mech_eq _ _ rfl fun k => by fin_cases k <;> rfl)

theorem pipeQ_settledC : pipeQ [mechCsettled, mechC] = [mechCsettled, mechC] :=
  dev2_eq (mech_eq _ _ rfl fun k => by fin_cases k <;> rfl)
    (mech_eq _ _ rfl fun k => by fin_cases k <;> rfl)

theorem pipeQ_8C : pipeQ [mechC8, mechC] = [mechC8b, mechC] :=
  dev2_eq (mech_eq _ _ rfl fun k => by fin_cases k <;> rfl)
    (mech_eq _ _ rfl fun k => by fin_cases k <;> rfl)

theorem pipeQ_8bC : pipeQ [mechC8b, mechC] = [mechC8b, mechC] :=
  dev2_eq (mech_eq _ _ rfl fun k => by fin_cases k <;> rfl)
    (mech_eq _ _ rfl fun k => by fin_cases k <;> rfl)

theorem pipeQ_8bFired : pipeQ [mechC8b, mechCfired] = [mechC8b, mechCsettled] :=
  dev2_eq (mech_eq _ _ rfl fun k => by fin_cases k <;> rfl)
    (mech_eq _ _ rfl fun k => by fin_cases k <;> rfl)

theorem pipeQ_8bSettled : pipeQ [mechC8b, mechCsettled] = [mechC8b, mechCsettled] :=
  dev2_eq (mech_eq _ _ rfl fun k => by fin_cases k <;> rfl)
    (mech_eq _ _ rfl fun k => by fin_cases k <;> rfl)

/-- Scenario C tick at a clear settle timer: the timestamp is recorded, no
calibration fires. -/
theorem tick_C_record (t : Nat) (h : ¬ t < 1000) :
    raven_homing idExtQ [mechC] ⟨true, 0, 0⟩ RL_INIT SL_AUTO_INIT t false =
      ([mechC], ⟨true, 0, t⟩, []) := by
  rw [tick_noinit [mechC] 0 t h, pipeQ_C, checkMechs_one, detect_mechC,
    mfc_record t 0 mechC cpl_mechC]
  rfl

/-- Scenario C tick while the recorded settle timestamp is at most 200 ticks
old: nothing changes. -/
theorem tick_C_wait (t d : Nat) (h : ¬ t < 1000) (hd : d ≠ 0) (hw : ¬ (d + 200 < t)) :
    raven_homing idExtQ [mechC] ⟨true, 0, d⟩ RL_INIT SL_AUTO_INIT t false =
      ([mechC], ⟨true, 0, d⟩, []) := by
  rw [tick_noinit [mechC] d t h, pipeQ_C, checkMechs_one, detect_mechC,
    mfc_wait t d 0 mechC cpl_mechC hd hw]
  rfl

/-- Scenario C tick once the settle timestamp is more than 200 ticks old: the
positioning calibration fires. -/
theorem tick_C_fire (t d : Nat) (h : ¬ t < 1000) (hd : d ≠ 0) (hf : d + 200 < t) :
    raven_homing idExtQ [mechC] ⟨true, 0, d⟩ RL_INIT SL_AUTO_INIT t false =
      ([mechCfired], ⟨true, 0, 0⟩, [(t, 0, false)]) := by
  rw [tick_noinit [mechC] d t h, pipeQ_C, checkMechs_one, detect_mechC,
    mfc_fire t d 0 mechC cpl_mechC hd hf, trdy_mechC]
  rfl

/-- Tick after the fire: the freshly calibrated joints advance to `homing2`
and the mechanism is no longer complete. -/
theorem tick_fired (t : Nat) (h : ¬ t < 1000) :
    raven_homing idExtQ [mechCfired] ⟨true, 0, 0⟩ RL_INIT SL_AUTO_INIT t false =
      ([mechCsettled], ⟨true, 0, 0⟩, []) := by
  rw [tick_noinit [mechCfired] 0 t h, pipeQ_fired, checkMechs_one, detect_settled,
    mfc_incomplete t 0 0 mechCsettled cpl_settled]
  rfl

/-- Steady tick after the calibration: the device no longer changes and no
further calibration fires. -/
theorem tick_settled (t : Nat) (h : ¬ t < 1000) :
    raven_homing idExtQ [mechCsettled] ⟨true, 0, 0⟩ RL_INIT SL_AUTO_INIT t false =
      ([mechCsettled], ⟨true, 0, 0⟩, []) := by
  rw [tick_noinit [mechCsettled] 0 t h, pipeQ_settled, checkMechs_one, detect_settled,
    mfc_incomplete t 0 0 mechCsettled cpl_settled]
  rfl

/-- Two complete mechanisms, clear timer: mechanism 0 records the shared
timestamp and mechanism 1 finds it taken. -/
theorem tick_CC_record (t : Nat) (h : ¬ t < 1000) :
    raven_homing idExtQ [mechC, mechC] ⟨true, 0, 0⟩ RL_INIT SL_AUTO_INIT t false =
      ([mechC, mechC], ⟨true, 0, t⟩, []) := by
  have ht0 : t ≠ 0 := by omega
  have hw : ¬ (t + 200 < t) := by omega
  rw [tick_noinit [mechC, mechC] 0 t h, pipeQ_CC, checkMechs_two, detect_mechC,
    mfc_record t 0 mechC cpl_mechC]
  dsimp only
  rw [mfc_wait t t 1 mechC cpl_mechC ht0 hw]
  rfl

/-- Two complete mechanisms, shared timestamp at most 200 ticks old: nothing
changes. -/
theorem tick_CC_wait (t d : Nat) (h : ¬ t < 1000) (hd : d ≠ 0) (hw : ¬ (d + 200 < t)) :
    raven_homing idExtQ [mechC, mechC] ⟨true, 0, d⟩ RL_INIT SL_AUTO_INIT t false =
      ([mechC, mechC], ⟨true, 0, d⟩, []) := by
  rw [tick_noinit [mechC, mechC] d t h, pipeQ_CC, checkMechs_two, detect_mechC,
    mfc_wait t d 0 mechC cpl_mechC hd hw]
  dsimp only
  rw [mfc_wait t d 1 mechC cpl_mechC hd hw]
  rfl

/-- Two complete mechanisms, shared timestamp over 200 ticks old: mechanism 0
fires and clears the timer, and mechanism 1 — instead of firing — re-records
the shared timestamp at the current tick. -/
theorem tick_CC_fire (t d : Nat) (h : ¬ t < 1000) (hd : d ≠ 0) (hf : d + 200 < t) :
    raven_homing idExtQ [mechC, mechC] ⟨true, 0, d⟩ RL_INIT SL_AUTO_INIT t false =
      ([mechCfired, mechC], ⟨true, 0, t⟩, [(t, 0, false)]) := by
  rw [tick_noinit [mechC, mechC] d t h, pipeQ_CC, checkMechs_two, detect_mechC,
    mfc_fire t d 0 mechC cpl_mechC hd hf]
  dsimp only
  rw [mfc_record t 1 mechC cpl_mechC, trdy_mechC]
  rfl

/-- Mechanism 0 just calibrated, mechanism 1 still waiting on the shared
timestamp: mechanism 0 settles into `homing2`, nothing else changes. -/
theorem tick_firedC_wait (t d : Nat) (h : ¬ t < 1000) (hd : d ≠ 0) (hw : ¬ (d + 200 < t)) :
    raven_homing idExtQ [mechCfired, mechC] ⟨true, 0, d⟩ RL_INIT SL_AUTO_INIT t false =
      ([mechCsettled, mechC], ⟨true, 0, d⟩, []) := by
  rw [tick_noinit [mechCfired, mechC] d t h, pipeQ_firedC, checkMechs_two, detect_settled,
    detect_mechC, mfc_incomplete t d 0 mechCsettled cpl_settled]
  dsimp only
  rw [mfc_wait t d 1 mechC cpl_mechC hd hw]
  rfl

/-- Mechanism 0 settled, mechanism 1 waiting on the shared timestamp. -/
theorem tick_settledC_wait (t d : Nat) (h : ¬ t < 1000) (hd : d ≠ 0) (hw : ¬ (d + 200 < t)) :
    raven_homing idExtQ [mechCsettled, mechC] ⟨true, 0, d⟩ RL_INIT SL_AUTO_INIT t false =
      ([mechCsettled, mechC], ⟨true, 0, d⟩, []) := by
  rw [tick_noinit [mechCsettled, mechC] d t h, pipeQ_settledC, checkMechs_two, detect_settled,
    detect_mechC, mfc_incomplete t d 0 mechCsettled cpl_settled]
  dsimp only
  rw [mfc_wait t d 1 mechC cpl_mechC hd hw]
  rfl

/-- Mechanism 0 settled; mechanism 1's (re-recorded) shared timestamp is now
over 200 ticks old, so mechanism 1 finally fires. -/
theorem tick_settledC_fire (t d : Nat) (h : ¬ t < 1000) (hd : d ≠ 0) (hf : d + 200 < t) :
    raven_homing idExtQ [mechCsettled, mechC] ⟨true, 0, d⟩ RL_INIT SL_AUTO_INIT t false =
      ([mechCsettled, mechCfired], ⟨true, 0, 0⟩, [(t, 1, false)]) := by
  rw [tick_noinit [mechCsettled, mechC] d t h, pipeQ_settledC, checkMechs_two, detect_settled,
    detect_mechC, mfc_incomplete t d 0 mechCsettled cpl_settled]
  dsimp only
  rw [mfc_fire t d 1 mechC cpl_mechC hd hf, trdy_mechC]
  rfl

/-- Mechanism 0 incomplete (its shoulder advances to `pos_unknown`),
mechanism 1 complete with a clear timer: mechanism 1 records. -/
theorem tick_8_record (t : Nat) (h : ¬ t < 1000) :
    raven_homing idExtQ [mechC8, mechC] ⟨true, 0, 0⟩ RL_INIT SL_AUTO_INIT t false =
      ([mechC8b, mechC], ⟨true, 0, t⟩, []) := by
  rw [tick_noinit [mechC8, mechC] 0 t h, pipeQ_8C, checkMechs_two, detect_8b,
    detect_mechC, mfc_incomplete t 0 0 mechC8b cpl_8b]
  dsimp only
  rw [mfc_record t 1 mechC cpl_mechC]
  rfl

/-- Mechanism 0 incomplete, mechanism 1 waiting on its own timestamp. -/
theorem tick_8b_wait (t d : Nat) (h : ¬ t < 1000) (hd : d ≠ 0) (hw : ¬ (d + 200 < t)) :
    raven_homing idExtQ [mechC8b, mechC] ⟨true, 0, d⟩ RL_INIT SL_AUTO_INIT t false =
      ([mechC8b, mechC], ⟨true, 0, d⟩, []) := by
  rw [tick_noinit [mechC8b, mechC] d t h, pipeQ_8bC, checkMechs_two, detect_8b,
    detect_mechC, mfc_incomplete t d 0 mechC8b cpl_8b]
  dsimp only
  rw [mfc_wait t d 1 mechC cpl_mechC hd hw]
  rfl

/-- Mechanism 0 incomplete, mechanism 1's timestamp over 200 ticks old:
mechanism 1 fires — undisturbed, since mechanism 0 never touched the timer. -/
theorem tick_8b_fire (t d : Nat) (h : ¬ t < 1000) (hd : d ≠ 0) (hf : d + 200 < t) :
    raven_homing idExtQ [mechC8b, mechC] ⟨true, 0, d⟩ RL_INIT SL_AUTO_INIT t false =
      ([mechC8b, mechCfired], ⟨true, 0, 0⟩, [(t, 1, false)]) := by
  rw [tick_noinit [mechC8b, mechC] d t h, pipeQ_8bC, checkMechs_two, detect_8b,
    detect_mechC, mfc_incomplete t d 0 mechC8b cpl_8b]
  dsimp only
  rw [mfc_fire t d 1 mechC cpl_mechC hd hf, trdy_mechC]
  rfl

/-- Both mechanisms now out of the completion condition (mechanism 1 just
calibrated): mechanism 1 settles into `homing2`. -/
theorem tick_8bFired (t : Nat) (h : ¬ t < 1000) :
    raven_homing idExtQ [mechC8b, mechCfired] ⟨true, 0, 0⟩ RL_INIT SL_AUTO_INIT t false =
      ([mechC8b, mechCsettled], ⟨true, 0, 0⟩, []) := by
  rw [tick_noinit [mechC8b, mechCfired] 0 t h, pipeQ_8bFired, checkMechs_two, detect_8b,
    detect_settled, mfc_incomplete t 0 0 mechC8b cpl_8b]
  dsimp only
  rw [mfc_incomplete t 0 1 mechCsettled cpl_settled]
  rfl

/-- Steady tick for the mixed device: nothing changes any more. -/
theorem tick_8bSettled (t : Nat) (h : ¬ t < 1000) :
    raven_homing idExtQ [mechC8b, mechCsettled] ⟨true, 0, 0⟩ RL_INIT SL_AUTO_INIT t false =
      ([mechC8b, mechCsettled], ⟨true, 0, 0⟩, []) := by
  rw [tick_noinit [mechC8b, mechCsettled] 0 t h, pipeQ_8bSettled, checkMechs_two, detect_8b,
    detect_settled, mfc_incomplete t 0 0 mechC8b cpl_8b]
  dsimp only
  rw [mfc_incomplete t 0 1 mechCsettled cpl_settled]
  rfl

/-- One step of `runTicks` on an explicit accumulator. -/
theorem runTicks_one (D : Device ℚ) (st : Statics) (evs : List (Nat × Nat × Bool)) (t : Nat) :
    runTicks idExtQ RL_INIT SL_AUTO_INIT false (D, st, evs) [t] =
      ((raven_homing idExtQ D st RL_INIT SL_AUTO_INIT t false).1,
       (raven_homing idExtQ D st RL_INIT SL_AUTO_INIT t false).2.1,
       evs ++ (raven_homing idExtQ D st RL_INIT SL_AUTO_INIT t false).2.2) := rfl

/-- `runTicks` over an appended tick list is sequential composition. -/
theorem runTicks_append (l1 l2 : List Nat) :
    ∀ acc : Device ℚ × Statics × List (Nat × Nat × Bool),
      runTicks idExtQ RL_INIT SL_AUTO_INIT false acc (l1 ++ l2) =
        runTicks idExtQ RL_INIT SL_AUTO_INIT false
          (runTicks idExtQ RL_INIT SL_AUTO_INIT false acc l1) l2 := by
  induction l1 with
  | nil => intro acc; rfl
  | cons t ts ih =>
      intro acc
      simp only [List.cons_append, runTicks]
      exact ih _

/-- A window of ticks on which every tick is a no-op accumulates nothing. -/
theorem runTicks_const (D : Device ℚ) (st : Statics) :
    ∀ (ts : List Nat) (evs : List (Nat × Nat × Bool)),
      (∀ t ∈ ts, raven_homing idExtQ D st RL_INIT SL_AUTO_INIT t false = (D, st, [])) →
      runTicks idExtQ RL_INIT SL_AUTO_INIT false (D, st, evs) ts = (D, st, evs) := by
  intro ts
  induction ts with
  | nil => intro evs _; rfl
  | cons t ts ih =>
      intro evs h
      rw [show (t :: ts : List Nat) = [t] ++ ts from rfl, runTicks_append, runTicks_one,
        h t (List.mem_cons_self t ts)]
      dsimp only
      rw [List.append_nil]
      exact ih evs fun t2 ht2 => h t2 (List.mem_cons_of_mem t ht2)

/-- C2 counterexample: with the positioning group continuously in `hard_stop`
from tick 1000 on (settle timer initially clear), no calibration call has
occurred through tick 1200 — neither at 199 nor at 200 elapsed ticks — because
the code fires only when `gTime > delay2 + 200`. -/
theorem C2_no_fire_by_1200_cex : (runC 201).2.2 = [] := by
  have hs : List.range' 1000 201 = [1000] ++ List.range' 1001 200 := by
    have a1 : ([1000] : List Nat) = List.range' 1000 1 := rfl
    rw [a1, List.range'_append_1]
  have h1 : runTicks idExtQ RL_INIT SL_AUTO_INIT false ([mechC], ⟨true, 0, 0⟩, []) [1000] =
      ([mechC], ⟨true, 0, 1000⟩, []) := by
    rw [runTicks_one, tick_C_record 1000 (by decide)]
    rfl
  have h2 : runTicks idExtQ RL_INIT SL_AUTO_INIT false ([mechC], ⟨true, 0, 1000⟩, [])
      (List.range' 1001 200) = ([mechC], ⟨true, 0, 1000⟩, []) := by
    refine runTicks_const _ _ _ _ fun t ht => ?_
    rw [List.mem_range'_1] at ht
    exact tick_C_wait t 1000 (by omega) (by omega) (by omega)
  simp only [runC, stC]
  rw [hs, runTicks_append, h1, h2]

/-- C2 (amended): with the positioning group continuously in `hard_stop` from
tick 1000 on and the settle timer initially clear, exactly one calibration
call occurs, at tick 1201 (201 elapsed ticks, the first tick with
`gTime > delay2 + 200`), with `tool_only = false`; none occurs at or before
200 elapsed ticks. -/
theorem C2_fire_at_1201_amended : (runC 403).2.2 = [(1201, 0, false)] := by
  have hs : List.range' 1000 403 =
      [1000] ++ (List.range' 1001 200 ++ ([1201] ++ ([1202] ++ List.range' 1203 200))) := by
    have a1 : ([1000] : List Nat) = List.range' 1000 1 := rfl
    have a2 : ([1201] : List Nat) = List.range' 1201 1 := rfl
    have a3 : ([1202] : List Nat) = List.range' 1202 1 := rfl
    rw [a1, a2, a3, List.range'_append_1, List.range'_append_1, List.range'_append_1,
      List.range'_append_1]
  have h1 : runTicks idExtQ RL_INIT SL_AUTO_INIT false ([mechC], ⟨true, 0, 0⟩, []) [1000] =
      ([mechC], ⟨true, 0, 1000⟩, []) := by
    rw [runTicks_one, tick_C_record 1000 (by decide)]
    rfl
  have h2 : runTicks idExtQ RL_INIT SL_AUTO_INIT false ([mechC], ⟨true, 0, 1000⟩, [])
      (List.range' 1001 200) = ([mechC], ⟨true, 0, 1000⟩, []) := by
    refine runTicks_const _ _ _ _ fun t ht => ?_
    rw [List.mem_range'_1] at ht
    exact tick_C_wait t 1000 (by omega) (by omega) (by omega)
  have h3 : runTicks idExtQ RL_INIT SL_AUTO_INIT false ([mechC], ⟨true, 0, 1000⟩, []) [1201] =
      ([mechCfired], ⟨true, 0, 0⟩, [(1201, 0, false)]) := by
    rw [runTicks_one, tick_C_fire 1201 1000 (by decide) (by decide) (by decide)]
    rfl
  have h4 : runTicks idExtQ RL_INIT SL_AUTO_INIT false
      ([mechCfired], ⟨true, 0, 0⟩, [(1201, 0, false)]) [1202] =
      ([mechCsettled], ⟨true, 0, 0⟩, [(1201, 0, false)]) := by
    rw [runTicks_one, tick_fired 1202 (by decide)]
    rfl
  have h5 : runTicks idExtQ RL_INIT SL_AUTO_INIT false
      ([mechCsettled], ⟨true, 0, 0⟩, [(1201, 0, false)]) (List.range' 1203 200) =
      ([mechCsettled], ⟨true, 0, 0⟩, [(1201, 0, false)]) := by
    refine runTicks_const _ _ _ _ fun t ht => ?_
    rw [List.mem_range'_1] at ht
    exact tick_settled t (by omega)
  simp only [runC, stC]
  rw [hs, runTicks_append, h1, runTicks_append, h2, runTicks_append, h3,
    runTicks_append, h4, h5]

/-- C8 counterexample: mechanism 1 is in the identical state in both runs, yet
its calibration fires at tick 1402 when mechanism 0 also completes (mechanism
0 claims the shared settle timestamp at 1000 and clears it when it fires at
1201, forcing mechanism 1 to re-record at 1201), and at tick 1201 when
mechanism 0 stays incomplete — mechanism 0's recording and clearing of the
timer changed mechanism 1's settle timing, so the timer is not
mechanism-scoped. -/
theorem C8_shared_timer_cex :
    (runC8a 403).2.2 = [(1201, 0, false), (1402, 1, false)]
    ∧ (runC8b 403).2.2 = [(1201, 1, false)] := by
  constructor
  · have hs : List.range' 1000 403 =
        [1000] ++ (List.range' 1001 200 ++
          ([1201] ++ ([1202] ++ (List.range' 1203 199 ++ [1402])))) := by
      have a1 : ([1000] : List Nat) = List.range' 1000 1 := rfl
      have a2 : ([1201] : List Nat) = List.range' 1201 1 := rfl
      have a3 : ([1202] : List Nat) = List.range' 1202 1 := rfl
      have a4 : ([1402] : List Nat) = List.range' 1402 1 := rfl
      rw [a1, a2, a3, a4, List.range'_append_1, List.range'_append_1, List.range'_append_1,
        List.range'_append_1, List.range'_append_1]
    have h1 : runTicks idExtQ RL_INIT SL_AUTO_INIT false
        ([mechC, mechC], ⟨true, 0, 0⟩, []) [1000] =
        ([mechC, mechC], ⟨true, 0, 1000⟩, []) := by
      rw [runTicks_one, tick_CC_record 1000 (by decide)]
      rfl
    have h2 : runTicks idExtQ RL_INIT SL_AUTO_INIT false
        ([mechC, mechC], ⟨true, 0, 1000⟩, []) (List.range' 1001 200) =
        ([mechC, mechC], ⟨true, 0, 1000⟩, []) := by
      refine runTicks_const _ _ _ _ fun t ht => ?_
      rw [List.mem_range'_1] at ht
      exact tick_CC_wait t 1000 (by omega) (by omega) (by omega)
    have h3 : runTicks idExtQ RL_INIT SL_AUTO_INIT false
        ([mechC, mechC], ⟨true, 0, 1000⟩, []) [1201] =
        ([mechCfired, mechC], ⟨true, 0, 1201⟩, [(1201, 0, false)]) := by
      rw [runTicks_one, tick_CC_fire 1201 1000 (by decide) (by decide) (by decide)]
      rfl
    have h4 : runTicks idExtQ RL_INIT SL_AUTO_INIT false
        ([mechCfired, mechC], ⟨true, 0, 1201⟩, [(1201, 0, false)]) [1202] =
        ([mechCsettled, mechC], ⟨true, 0, 1201⟩, [(1201, 0, false)]) := by
      rw [runTicks_one, tick_firedC_wait 1202 1201 (by decide) (by decide) (by decide)]
      rfl
    have h5 : runTicks idExtQ RL_INIT SL_AUTO_INIT false
        ([mechCsettled, mechC], ⟨true, 0, 1201⟩, [(1201, 0, false)]) (List.range' 1203 199) =
        ([mechCsettled, mechC], ⟨true, 0, 1201⟩, [(1201, 0, false)]) := by
      refine runTicks_const _ _ _ _ fun t ht => ?_
      rw [List.mem_range'_1] at ht
      exact tick_settledC_wait t 1201 (by omega) (by omega) (by omega)
    have h6 : runTicks idExtQ RL_INIT SL_AUTO_INIT false
        ([mechCsettled, mechC], ⟨true, 0, 1201⟩, [(1201, 0, false)]) [1402] =
        ([mechCsettled, mechCfired], ⟨true, 0, 0⟩, [(1201, 0, false), (1402, 1, false)]) := by
      rw [runTicks_one, tick_settledC_fire 1402 1201 (by decide) (by decide) (by decide)]
      rfl
    simp only [runC8a, stC]
    rw [hs, runTicks_append, h1, runTicks_append, h2, runTicks_append, h3,
      runTicks_append, h4, runTicks_append, h5, h6]
  · have hs : List.range' 1000 403 =
        [1000] ++ (List.range' 1001 200 ++ ([1201] ++ ([1202] ++ List.range' 1203 200))) := by
      have a1 : ([1000] : List Nat) = List.range' 1000 1 := rfl
      have a2 : ([1201] : List Nat) = List.range' 1201 1 := rfl
      have a3 : ([1202] : List Nat) = List.range' 1202 1 := rfl
      rw [a1, a2, a3, List.range'_append_1, List.range'_append_1, List.range'_append_1,
        List.range'_append_1]
    have h1 : runTicks idExtQ RL_INIT SL_AUTO_INIT false
        ([mechC8, mechC], ⟨true, 0, 0⟩, []) [1000] =
        ([mechC8b, mechC], ⟨true, 0, 1000⟩, []) := by
      rw [runTicks_one, tick_8_record 1000 (by decide)]
      rfl
    have h2 : runTicks idExtQ RL_INIT SL_AUTO_INIT false
        ([mechC8b, mechC], ⟨true, 0, 1000⟩, []) (List.range' 1001 200) =
        ([mechC8b, mechC], ⟨true, 0, 1000⟩, []) := by
      refine runTicks_const _ _ _ _ fun t ht => ?_
      rw [List.mem_range'_1] at ht
      exact tick_8b_wait t 1000 (by omega) (by omega) (by omega)
    have h3 : runTicks idExtQ RL_INIT SL_AUTO_INIT false
        ([mechC8b, mechC], ⟨true, 0, 1000⟩, []) [1201] =
        ([mechC8b, mechCfired], ⟨true, 0, 0⟩, [(1201, 1, false)]) := by
      rw [runTicks_one, tick_8b_fire 1201 1000 (by decide) (by decide) (by decide)]
      rfl
    have h4 : runTicks idExtQ RL_INIT SL_AUTO_INIT false
        ([mechC8b, mechCfired], ⟨true, 0, 0⟩, [(1201, 1, false)]) [1202] =
        ([mechC8b, mechCsettled], ⟨true, 0, 0⟩, [(1201, 1, false)]) := by
      rw [runTicks_one, tick_8bFired 1202 (by decide)]
      rfl
    have h5 : runTicks idExtQ RL_INIT SL_AUTO_INIT false
        ([mechC8b, mechCsettled], ⟨true, 0, 0⟩, [(1201, 1, false)]) (List.range' 1203 200) =
        ([mechC8b, mechCsettled], ⟨true, 0, 0⟩, [(1201, 1, false)]) := by
      refine runTicks_const _ _ _ _ fun t ht => ?_
      rw [List.mem_range'_1] at ht
      exact tick_8bSettled t (by omega)
    simp only [runC8b, stC]
    rw [hs, runTicks_append, h1, runTicks_append, h2, runTicks_append, h3,
      runTicks_append, h4, h5]

/-- C8 (amended): the settle timestamp `delay2` is a single device-wide static
shared by every mechanism: while it holds a nonzero timestamp, a mechanism
whose completion predicate is true does not record its own settle start — the
timer it leaves is the existing shared timestamp (or 0 if it fires), and its
fire decision compares `gTime` against that shared timestamp rather than
against the tick its own group completed. -/
theorem C8_shared_timer_amended {K : Type} [Field K] (ext : Externals K)
    (gTime delay2 idx : Nat) (m : Mechanism K) (hd : delay2 ≠ 0)
    (hc : mechHomingComplete m = true) :
    ((mechFinishCheck ext gTime delay2 idx m).2.1 =
      if delay2 + 200 < gTime then 0 else delay2)
    ∧ ((mechFinishCheck ext gTime delay2 idx m).2.2 =
      if delay2 + 200 < gTime then some (gTime, idx, ! tools_ready m) else none) := by
  unfold mechFinishCheck
  simp only [hc, if_true, if_neg hd]
  split <;> simp

/-- Witness for the amended C8: a foreign timestamp 100 and a complete
mechanism at tick 500 — the mechanism fires against the foreign timestamp. -/
theorem C8_shared_timer_amended_witness :
    ((mechFinishCheck idExtQ 500 100 1 mechC).2.1 =
      if 100 + 200 < 500 then 0 else 100)
    ∧ ((mechFinishCheck idExtQ 500 100 1 mechC).2.2 =
      if 100 + 200 < 500 then some (500, 1, ! tools_ready mechC) else none) :=
  C8_shared_timer_amended idExtQ 500 100 1 mechC (by decide) (by decide)

theorem tools_ready_eq_false {K : Type} (m : Mechanism K)
    (h : ∀ k : Fin 8, (m.joints k).state ≠ Jstate.ready) : tools_ready m = false := by
  unfold tools_ready
  rw [if_neg]
  intro hc
  exact h TOOL_ROT hc.1

theorem homing2Step_typ {K : Type} (ext : Externals K) (j : DOF K) :
    (homing2Step ext j).typ = j.typ := by
  unfold homing2Step
  by_cases hr : (ext.update_position_trajectory j).2 = true <;> simp [hr, applySample]

theorem homing_typ {K : Type} [Field K] (ext : Externals K) (j : DOF K) :
    (homing ext j).typ = j.typ := by
  unfold homing
  split <;> first | rfl | simp [homing2Step_typ, applySample]

theorem homing_state_of_not_ready {K : Type} [Field K] (ext : Externals K) (j : DOF K)
    (h : j.state = Jstate.not_ready) : (homing ext j).state = Jstate.pos_unknown := by
  unfold homing
  rw [h]
  rfl

theorem homing_state_of_pos_unknown {K : Type} [Field K] (ext : Externals K) (j : DOF K)
    (h : j.state = Jstate.pos_unknown) : (homing ext j).state = Jstate.pos_unknown := by
  unfold homing
  rw [h]
  exact h

theorem motion_fold_inv {K : Type} [Field K] (ext : Externals K) (m₀ : Mechanism K)
    (h₀ : ∀ k, (m₀.joints k).state = Jstate.not_ready) :
    ∀ (l : List (Fin 8)) (m : Mechanism K),
      (∀ k, (m.joints k).typ = (m₀.joints k).typ) →
      (∀ k, is_toolDOF (m₀.joints k).typ = false → m.joints k = m₀.joints k) →
      (∀ k, is_toolDOF (m₀.joints k).typ = true →
        (m.joints k).state = Jstate.not_ready ∨ (m.joints k).state = Jstate.pos_unknown) →
      ((∀ k, ((l.foldl (motionStep ext) m).joints k).typ = (m₀.joints k).typ) ∧
       (∀ k, is_toolDOF (m₀.joints k).typ = false →
         (l.foldl (motionStep ext) m).joints k = m₀.joints k) ∧
       (∀ k, is_toolDOF (m₀.joints k).typ = true →
         ((l.foldl (motionStep ext) m).joints k).state = Jstate.not_ready ∨
         ((l.foldl (motionStep ext) m).joints k).state = Jstate.pos_unknown) ∧
       (∀ k, is_toolDOF (m₀.joints k).typ = true → (m.joints k).state = Jstate.pos_unknown →
         ((l.foldl (motionStep ext) m).joints k).state = Jstate.pos_unknown) ∧
       (∀ k ∈ l, is_toolDOF (m₀.joints k).typ = true →
         ((l.foldl (motionStep ext) m).joints k).state = Jstate.pos_unknown)) := by
  intro l
  induction l with
  | nil =>
      intro m h1 h2 h3
      exact ⟨h1, h2, h3, fun k _ hp => hp, fun k hk => absurd hk (List.not_mem_nil k)⟩
  | cons i rest ih =>
      intro m h1 h2 h3
      have hnr : ∀ k, (m.joints k).state ≠ Jstate.ready := by
        intro k
        by_cases ht : is_toolDOF (m₀.joints k).typ = true
        · rcases h3 k ht with h | h <;> simp [h]
        · rw [h2 k (by simpa using ht), h₀ k]
          simp
      have htr : tools_ready m = false := tools_ready_eq_false m hnr
      have hcase : (motionStep ext m i =
            {m with joints := fun k => if k = i then homing ext (m.joints i) else m.joints k} ∧
            is_toolDOF (m₀.joints i).typ = true)
          ∨ (motionStep ext m i = m ∧ is_toolDOF (m₀.joints i).typ = false) := by
        unfold motionStep
        by_cases ht : is_toolDOF (m₀.joints i).typ = true
        · left
          refine ⟨?_, ht⟩
          rw [if_pos]
          left
          rw [h1 i]
          exact ht
        · right
          refine ⟨?_, by simpa using ht⟩
          rw [if_neg]
          rintro (hc | hc)
          · rw [h1 i] at hc
            exact ht hc
          · rw [htr] at hc
            cases hc
      simp only [List.foldl_cons]
      rcases hcase with ⟨heq, ht⟩ | ⟨heq, ht⟩
      · rw [heq]
        have hj : ∀ k, ({m with joints := fun k =>
              if k = i then homing ext (m.joints i) else m.joints k} : Mechanism K).joints k =
            if k = i then homing ext (m.joints i) else m.joints k := fun k => rfl
        have h1' : ∀ k, (({m with joints := fun k =>
              if k = i then homing ext (m.joints i) else m.joints k} : Mechanism K).joints k).typ =
            (m₀.joints k).typ := by
          intro k
          rw [hj k]
          by_cases hk : k = i
          · subst hk
            rw [if_pos rfl, homing_typ]
            exact h1 k
          · rw [if_neg hk]
            exact h1 k
        have h2' : ∀ k, is_toolDOF (m₀.joints k).typ = false →
            ({m with joints := fun k =>
              if k = i then homing ext (m.joints i) else m.joints k} : Mechanism K).joints k =
            m₀.joints k := by
          intro k hkt
          rw [hj k]
          by_cases hk : k = i
          · subst hk
            rw [hkt] at ht
            cases ht
          · rw [if_neg hk]
            exact h2 k hkt
        have h3' : ∀ k, is_toolDOF (m₀.joints k).typ = true →
            (({m with joints := fun k =>
              if k = i then homing ext (m.joints i) else m.joints k} : Mechanism K).joints k).state =
              Jstate.not_ready ∨
            (({m with joints := fun k =>
              if k = i then homing ext (m.joints i) else m.joints k} : Mechanism K).joints k).state =
              Jstate.pos_unknown := by
          intro k hkt
          rw [hj k]
          by_cases hk : k = i
          · subst hk
            rw [if_pos rfl]
            right
            rcases h3 k hkt with h | h
            · exact homing_state_of_not_ready ext _ h
            · exact homing_state_of_pos_unknown ext _ h
          · rw [if_neg hk]
            exact h3 k hkt
        obtain ⟨g1, g2, g3, g4, g5⟩ := ih _ h1' h2' h3'
        refine ⟨g1, g2, g3, ?_, ?_⟩
        · intro k hkt hp
          refine g4 k hkt ?_
          rw [hj k]
          by_cases hk : k = i
          · subst hk
            rw [if_pos rfl]
            exact homing_state_of_pos_unknown ext _ hp
          · rw [if_neg hk]
            exact hp
        · intro k hk hkt
          rcases List.mem_cons.mp hk with hki | hkr
          · subst hki
            refine g4 k hkt ?_
            rw [hj k, if_pos rfl]
            rcases h3 k hkt with h | h
            · exact homing_state_of_not_ready ext _ h
            · exact homing_state_of_pos_unknown ext _ h
          · exact g5 k hkr hkt
      · rw [heq]
        obtain ⟨g1, g2, g3, g4, g5⟩ := ih m h1 h2 h3
        refine ⟨g1, g2, g3, g4, ?_⟩
        intro k hk hkt
        rcases List.mem_cons.mp hk with hki | hkr
        · subst hki
          rw [hkt] at ht
          cases ht
        · exact g5 k hkr hkt

theorem initJoint_spec {K : Type} [Field K] (j : DOF K) :
    (initJoint j).typ = j.typ ∧ (initJoint j).tau_d = 0 ∧
    (initJoint j).mpos_d = (initJoint j).mpos ∧ (initJoint j).jpos_d = (initJoint j).jpos ∧
    (initJoint j).jvel_d = 0 ∧ (initJoint j).state = Jstate.not_ready ∧
    (is_toolDOF (initJoint j).typ = true → (initJoint j).velPIIntegral = 0) := by
  unfold initJoint jvel_PI_control_reset
  by_cases h : is_toolDOF j.typ = true <;> simp [h]

theorem motionMech_spec {K : Type} [Field K] (ext : Externals K) (m₀ : Mechanism K)
    (h₀ : ∀ k, (m₀.joints k).state = Jstate.not_ready) :
    (∀ k, ((motionMech ext m₀).joints k).typ = (m₀.joints k).typ) ∧
    (∀ k, is_toolDOF (m₀.joints k).typ = false → (motionMech ext m₀).joints k = m₀.joints k) ∧
    (∀ k, is_toolDOF (m₀.joints k).typ = true →
      ((motionMech ext m₀).joints k).state = Jstate.pos_unknown) := by
  obtain ⟨g1, g2, g3, g4, g5⟩ := motion_fold_inv ext m₀ h₀ (List.finRange 8) m₀
      (fun k => rfl) (fun k _ => rfl) (fun k _ => Or.inl (h₀ k))
  exact ⟨g1, g2, fun k hkt => g5 k (List.mem_finRange k) hkt⟩

/-- C9 counterexample: Scenario A — the tick that starts homing resets every
joint, but two ticks later the shoulder (a positioning joint, whose
mechanism's tools are not yet homed) has still not become `pos_unknown`: the
motion loop skips positioning joints until `tools_ready`. -/
theorem C9_two_ticks_cex :
    ((runA3.1.headD mechDefault).joints 0).state ≠ Jstate.pos_unknown := by decide

/-- C9 (amended): in INIT/AUTO_INIT past the 1000-tick delay with
`begin_homing` asserted, the tick starts with the full reset pass; immediately
after it every joint has `tau_d = 0`, `mpos_d = mpos`, `jpos_d = jpos`,
`jvel_d = 0`, state `not_ready`, and a cleared tool velocity-PI integral; in
the same tick's motion phase every tool DOF advances `not_ready →
pos_unknown` while every positioning joint is left untouched (still
`not_ready`, since tools cannot be ready immediately after the reset); in
particular, in Scenario A the shoulder is still `not_ready` two ticks later,
not `pos_unknown` within 2 ticks. -/
theorem C9_reset_behavior {K : Type} [Field K] (ext : Externals K) (dev : Device K)
    (st : Statics) (gTime : Nat) (hdelay : st.delay + 1000 ≤ gTime) :
    ((raven_homing ext dev st RL_INIT SL_AUTO_INIT gTime true).1 =
      (checkMechs ext gTime 0 st.delay2
        (dacPass ext (pdPass ext (invCablePass ext RL_INIT
          (motionPass ext (initPass dev)))))).1)
    ∧ (∀ m ∈ initPass dev, ∀ k : Fin 8,
        (m.joints k).tau_d = 0 ∧ (m.joints k).mpos_d = (m.joints k).mpos ∧
        (m.joints k).jpos_d = (m.joints k).jpos ∧ (m.joints k).jvel_d = 0 ∧
        (m.joints k).state = Jstate.not_ready ∧
        (is_toolDOF (m.joints k).typ = true → (m.joints k).velPIIntegral = 0))
    ∧ (∀ m ∈ motionPass ext (initPass dev), ∀ k : Fin 8,
        (is_toolDOF (m.joints k).typ = true → (m.joints k).state = Jstate.pos_unknown) ∧
        (is_toolDOF (m.joints k).typ = false → (m.joints k).state = Jstate.not_ready))
    ∧ ((runA3.1.headD mechDefault).joints 0).state = Jstate.not_ready := by
  refine ⟨?_, ?_, ?_, by decide⟩
  · unfold raven_homing
    have hg : ¬ (gTime - st.delay < 1000) := by omega
    rw [if_neg (by simp), if_neg hg, if_pos (Or.inl rfl)]
  · intro m hm k
    rcases List.mem_map.mp hm with ⟨m₁, hm₁, rfl⟩
    obtain ⟨_, s2, s3, s4, s5, s6, s7⟩ := initJoint_spec (m₁.joints k)
    exact ⟨s2, s3, s4, s5, s6, s7⟩
  · intro m hm k
    rcases List.mem_map.mp hm with ⟨m₂, hm₂, rfl⟩
    have h₀ : ∀ k, (m₂.joints k).state = Jstate.not_ready := by
      intro k2
      rcases List.mem_map.mp hm₂ with ⟨m₃, hm₃, rfl⟩
      exact (initJoint_spec (m₃.joints k2)).2.2.2.2.2.1
    obtain ⟨g1, g2, g3⟩ := motionMech_spec ext m₂ h₀
    constructor
    · intro htk
      refine g3 k ?_
      rw [← g1 k]
      exact htk
    · intro htk
      have htk' : is_toolDOF (m₂.joints k).typ = false := by
        rw [← g1 k]
        exact htk
      rw [g2 k htk']
      exact h₀ k

/-- Witness for the amended C9: the Scenario A device at tick 1000. -/
theorem C9_reset_behavior_witness :
    ((raven_homing idExtQ [mechA] stA RL_INIT SL_AUTO_INIT 1000 true).1 =
      (checkMechs idExtQ 1000 0 stA.delay2
        (dacPass idExtQ (pdPass idExtQ (invCablePass idExtQ RL_INIT
          (motionPass idExtQ (initPass [mechA])))))).1)
    ∧ (∀ m ∈ initPass [mechA], ∀ k : Fin 8,
        (m.joints k).tau_d = 0 ∧ (m.joints k).mpos_d = (m.joints k).mpos ∧
        (m.joints k).jpos_d = (m.joints k).jpos ∧ (m.joints k).jvel_d = 0 ∧
        (m.joints k).state = Jstate.not_ready ∧
        (is_toolDOF (m.joints k).typ = true → (m.joints k).velPIIntegral = 0))
    ∧ (∀ m ∈ motionPass idExtQ (initPass [mechA]), ∀ k : Fin 8,
        (is_toolDOF (m.joints k).typ = true → (m.joints k).state = Jstate.pos_unknown) ∧
        (is_toolDOF (m.joints k).typ = false → (m.joints k).state = Jstate.not_ready))
    ∧ ((runA3.1.headD mechDefault).joints 0).state = Jstate.not_ready :=
  C9_reset_behavior idExtQ [mechA] stA 1000 (by decide)

theorem initJoint_eq_of_resetErased {K : Type} [Field K] (j j' : DOF K)
    (h : resetErased j j') : initJoint j = initJoint j' := by
  obtain ⟨h1, h2, h3, h4, h5, h6, h7⟩ := h
  unfold initJoint jvel_PI_control_reset
  by_cases ht : is_toolDOF j.typ = true
  · have ht' : is_toolDOF j'.typ = true := h1 ▸ ht
    rw [if_pos ht, if_pos ht']
    simp [DOF.mk.injEq, h1, h2, h3, h4, h5, h6]
  · have ht' : ¬ is_toolDOF j'.typ = true := h1 ▸ ht
    have hv : j.velPIIntegral = j'.velPIIntegral := by
      rcases h7 with h7 | h7
      · exact absurd h7 ht
      · exact h7
    rw [if_neg ht, if_neg ht']
    simp [DOF.mk.injEq, h1, h2, h3, h4, h5, h6, hv]

theorem initPass_eq_of_resetAgree {K : Type} [Field K] (d d' : Device K)
    (h : resetAgree d d') : initPass d = initPass d' := by
  unfold resetAgree at h
  unfold initPass
  induction h with
  | nil => rfl
  | cons hmm htail ih =>
      simp only [List.map_cons]
      rw [ih]
      congr 1
      obtain ⟨ha, hj⟩ := hmm
      simp only [Mechanism.mk.injEq]
      exact ⟨ha, funext fun k => initJoint_eq_of_resetErased _ _ (hj k)⟩

/-- C10: while `begin_homing` stays asserted on a tick that reaches the homing
body (INIT/AUTO_INIT, past the 1000-tick delay), the full reset pass runs at
the start of the tick, setting every joint's state back to `not_ready`; the
tick's entire outcome is therefore independent of the joint states and desired
values reached on earlier ticks — any `hard_stop`, `homing1`, `homing2` or
`ready` state is discarded, so homing can progress across ticks only if
`begin_homing` is deasserted after the tick that starts the pass. -/
theorem C10_begin_homing_reset {K : Type} [Field K] (ext : Externals K)
    (dev dev' : Device K) (st : Statics) (gTime : Nat)
    (hdelay : st.delay + 1000 ≤ gTime) (hagree : resetAgree dev dev') :
    (∀ m ∈ initPass dev, ∀ k : Fin 8, (m.joints k).state = Jstate.not_ready)
    ∧ raven_homing ext dev st RL_INIT SL_AUTO_INIT gTime true =
        raven_homing ext dev' st RL_INIT SL_AUTO_INIT gTime true := by
  constructor
  · intro m hm k
    rcases List.mem_map.mp hm with ⟨m₁, _, rfl⟩
    exact (initJoint_spec (m₁.joints k)).2.2.2.2.2.1
  · have hinit := initPass_eq_of_resetAgree dev dev' hagree
    have hlen : dev.isEmpty = dev'.isEmpty := by
      have := List.Forall₂.length_eq hagree
      cases dev <;> cases dev' <;> simp_all
    have hg : ¬ (gTime - st.delay < 1000) := by omega
    have key : ∀ dv : Device K, raven_homing ext dv st RL_INIT SL_AUTO_INIT gTime true =
        (let p : Device K × Statics :=
          (initPass dv, {st with homing_inited := st.homing_inited || ! dv.isEmpty})
         let dev1 := motionPass ext p.1
         let dev2 := invCablePass ext RL_INIT dev1
         let dev3 := pdPass ext dev2
         let dev4 := dacPass ext dev3
         let r := checkMechs ext gTime 0 p.2.delay2 dev4
         (r.1, {p.2 with delay2 := r.2.1}, r.2.2)) := by
      intro dv
      unfold raven_homing
      rw [if_neg (by simp), if_neg hg, if_pos (Or.inl rfl)]
    rw [key dev, key dev', hinit, hlen]

/-- Witness for C10: a device with positioning joints parked at `hard_stop`
and tools `ready` versus the same device entirely `not_ready` — with
`begin_homing` asserted the tick produces identical results, discarding the
prior progress. -/
theorem C10_begin_homing_reset_witness :
    (∀ m ∈ initPass ([mechC] : Device ℚ), ∀ k : Fin 8,
      (m.joints k).state = Jstate.not_ready)
    ∧ raven_homing idExtQ [mechC] stC RL_INIT SL_AUTO_INIT 1000 true =
        raven_homing idExtQ [mechA] stC RL_INIT SL_AUTO_INIT 1000 true :=
  C10_begin_homing_reset idExtQ [mechC] [mechA] stC 1000 (by decide)
    (List.Forall₂.cons ⟨rfl, by decide⟩ List.Forall₂.nil)
